import Mathlib

/-!
Shallow embedding of `src/main.cpp` of the time-since repository: the timer
hierarchy (`Timer`, `ButtonTimer`, `PollingTimer`, `GitHubPollingTimer`,
`BlueskyPollingTimer`, `WeatherPollingTimer`) and the display controller
(`TimerDisplay`).  Network and JSON effects are modelled by explicit
environment records recording, for one check attempt, what the transport and
decoder would have reported; wall-clock reads (`time(nullptr)`) become
explicit fields of those records, one per read site.  Machine integers:
`time_t` is modelled as `Int` (64-bit on the target, no overflow in range),
`uint8_t` index arithmetic is modelled with an explicit conversion through
`% 256`, and C++ `%` / `/` on `int` (truncated) are modelled by `cppMod` /
`cppDiv`.  Temperatures (C `float`) are modelled as `ℚ`: the only float
operation the code performs on them is the exact comparison `> 0.0f`, which
agrees with the rational order on all values the decoder can produce.
-/

namespace TimeSince

/-- C++ truncated integer division (the `/` of `int`): rounds toward zero. -/
def cppDiv (a b : Int) : Int :=
  if 0 ≤ a then Int.ediv a b else -(Int.ediv (-a) b)

/-- C++ truncated integer remainder (the `%` of `int`): sign of the dividend. -/
def cppMod (a b : Int) : Int :=
  if 0 ≤ a then Int.emod a b else -(Int.emod (-a) b)

/-- Conversion of an `int` value to `uint8_t` (C++ modulo-256 wraparound). -/
def toUInt8Val (x : Int) : Nat := (Int.emod x 256).toNat

/-- The fields of `struct tm` that `strptime`/`mktime` use here, with the
month 1-based and the year absolute (the composition of `strptime` writing
`tm_mon = m - 1`, `tm_year = y - 1900` and `mktime` reading them back). -/
structure Tm where
  year : Nat
  mon : Nat
  mday : Nat
  hour : Nat
  minute : Nat
  sec : Nat
deriving Repr, DecidableEq

/-- The zero-initialised `struct tm tm = {0}` as `mktime` sees it when
`strptime` fails without writing any field: year 1900, month January
(`tm_mon = 0`), `tm_mday = 0`. -/
def tmZero : Tm := ⟨1900, 1, 0, 0, 0, 0⟩

/-- Days from 1970-01-01 of the civil date `y-m-d` (proleptic Gregorian),
Howard Hinnant's `days_from_civil` as used by `mktime` for a UTC zone;
linear in `d`, so `mday = 0` denotes the day before the first of the month,
matching `mktime`'s field normalisation. -/
def daysFromCivil (y m d : Int) : Int :=
  let y1 := if m ≤ 2 then y - 1 else y
  let era := cppDiv (if 0 ≤ y1 then y1 else y1 - 399) 400
  let yoe := y1 - era * 400
  let mp := cppMod (m + 9) 12
  let doy := cppDiv (153 * mp + 2) 5 + d - 1
  let doe := yoe * 365 + cppDiv yoe 4 - cppDiv yoe 100 + doy
  era * 146097 + doe - 719468

/-- `mktime` on the device: the firmware calls
`configTime(GMT_OFFSET_SEC = 0, DAYLIGHT_OFFSET_SEC = 0, ...)`, so local
time is UTC and `mktime` is the plain civil-to-epoch conversion
(`tm_isdst` is 0 from the zero initialiser, so no DST adjustment). -/
def mktimeUTC (t : Tm) : Int :=
  daysFromCivil (t.year : Int) (t.mon : Int) (t.mday : Int) * 86400
    + (t.hour : Int) * 3600 + (t.minute : Int) * 60 + (t.sec : Int)

/-- Value of a decimal digit character, `none` for a non-digit. -/
def digitVal (c : Char) : Option Nat :=
  if c.isDigit then some (c.toNat - 48) else none

/-- Parse exactly `n` decimal digits (accumulator `acc`), returning the value
and the remaining characters. -/
def parseFixedAux (acc : Nat) : Nat → List Char → Option (Nat × List Char)
  | 0, cs => some (acc, cs)
  | n + 1, c :: cs =>
    match digitVal c with
    | some d => parseFixedAux (acc * 10 + d) n cs
    | none => none
  | _ + 1, [] => none

/-- Consume one expected literal character. -/
def expectChar (ch : Char) : List Char → Option (List Char)
  | c :: cs => if c = ch then some cs else none
  | [] => none

/-- `strptime(s, "%Y-%m-%dT%H:%M:%S", &tm)` on the ISO-like strings the two
feed endpoints produce: four year digits, two digits for each other field,
literal separators, range checks as in glibc; trailing characters (such as a
`Z` suffix) are ignored, exactly as `strptime` leaves them unconsumed and
still returns non-NULL. -/
def strptimeYmdHMS (s : String) : Option Tm := do
  let cs := s.toList
  let (y, cs) ← parseFixedAux 0 4 cs
  let cs ← expectChar '-' cs
  let (mo, cs) ← parseFixedAux 0 2 cs
  let cs ← expectChar '-' cs
  let (d, cs) ← parseFixedAux 0 2 cs
  let cs ← expectChar 'T' cs
  let (h, cs) ← parseFixedAux 0 2 cs
  let cs ← expectChar ':' cs
  let (mi, cs) ← parseFixedAux 0 2 cs
  let cs ← expectChar ':' cs
  let (se, _) ← parseFixedAux 0 2 cs
  if 1 ≤ mo ∧ mo ≤ 12 ∧ 1 ≤ d ∧ d ≤ 31 ∧ h ≤ 23 ∧ mi ≤ 59 ∧ se ≤ 60 then
    pure ⟨y, mo, d, h, mi, se⟩
  else
    none

/-- `strptime(s, "%Y-%m-%dT%H:%M", &tm)` for the weather archive timestamps
(minute precision); seconds stay 0 from the zero initialiser. -/
def strptimeYmdHM (s : String) : Option Tm := do
  let cs := s.toList
  let (y, cs) ← parseFixedAux 0 4 cs
  let cs ← expectChar '-' cs
  let (mo, cs) ← parseFixedAux 0 2 cs
  let cs ← expectChar '-' cs
  let (d, cs) ← parseFixedAux 0 2 cs
  let cs ← expectChar 'T' cs
  let (h, cs) ← parseFixedAux 0 2 cs
  let cs ← expectChar ':' cs
  let (mi, _) ← parseFixedAux 0 2 cs
  if 1 ≤ mo ∧ mo ≤ 12 ∧ 1 ≤ d ∧ d ≤ 31 ∧ h ≤ 23 ∧ mi ≤ 59 then
    pure ⟨y, mo, d, h, mi, 0⟩
  else
    none

/-- Mutable state shared by every `PollingTimer`: `Timer::lastTriggerTime`
plus `PollingTimer::lastPollTime` (both `time_t`). -/
structure PollerState where
  lastTriggerTime : Int
  lastPollTime : Int
deriving Repr, DecidableEq

/-- `PollingTimer::shouldPoll`: `difftime(currentTime, lastPollTime) >=
pollingInterval` (`difftime` is exact on these magnitudes). -/
def shouldPoll (pollingInterval : Nat) (currentTime : Int) (st : PollerState) : Bool :=
  (pollingInterval : Int) ≤ currentTime - st.lastPollTime

/-- `PollingTimer::poll`: run the implementation; on success stamp
`lastPollTime` with a fresh `time(nullptr)` read (`wallNow`), on failure
leave the state untouched.  `implResult` is the pair (success, new
`lastTriggerTime`) produced by the subclass's `pollImpl`. -/
def runPoll (implResult : Bool × Int) (wallNow : Int) (st : PollerState) :
    Bool × PollerState :=
  let success := implResult.1
  (success,
    { lastTriggerTime := implResult.2,
      lastPollTime := if success then wallNow else st.lastPollTime })

/-- What one feed-poll check attempt observes from the outside world
(GitHub or Bluesky endpoint): transport availability, whether
`http.begin` succeeded, the HTTP status, whether JSON deserialisation
succeeded, the extracted creation-timestamp field (`none` when the field is
absent or null in the filtered document), and the `time(nullptr)` value
read by `PollingTimer::poll` after a success. -/
structure FeedEnv where
  wifiConnected : Bool
  httpBeginOk : Bool
  httpCode : Int
  jsonOk : Bool
  createdAt : Option String
  wallNow : Int
deriving Repr, DecidableEq

/-- `GitHubPollingTimer::pollImpl`: guard on WiFi, `http.begin`, status 200,
JSON decode, presence of `doc[0]["created_at"]`, then `strptime`/`mktime`
and `trigger(eventTime)`.  Returns (success, new `lastTriggerTime`);
every failure path leaves the trigger time unchanged. -/
def githubPollImpl (env : FeedEnv) (st : PollerState) : Bool × Int :=
  if env.wifiConnected = false then (false, st.lastTriggerTime)
  else if env.httpBeginOk = false then (false, st.lastTriggerTime)
  else if env.httpCode = 200 then
    if env.jsonOk then
      match env.createdAt with
      | some dateStr =>
        match strptimeYmdHMS dateStr with
        | some tm => (true, mktimeUTC tm)
        | none => (false, st.lastTriggerTime)
      | none => (false, st.lastTriggerTime)
    else (false, st.lastTriggerTime)
  else (false, st.lastTriggerTime)

/-- `BlueskyPollingTimer::pollImpl`: same control flow as the GitHub poll,
reading `doc["records"][0]["value"]["createdAt"]` instead. -/
def blueskyPollImpl (env : FeedEnv) (st : PollerState) : Bool × Int :=
  if env.wifiConnected = false then (false, st.lastTriggerTime)
  else if env.httpBeginOk = false then (false, st.lastTriggerTime)
  else if env.httpCode = 200 then
    if env.jsonOk then
      match env.createdAt with
      | some dateStr =>
        match strptimeYmdHMS dateStr with
        | some tm => (true, mktimeUTC tm)
        | none => (false, st.lastTriggerTime)
      | none => (false, st.lastTriggerTime)
    else (false, st.lastTriggerTime)
  else (false, st.lastTriggerTime)

/-- `PollingTimer::poll` specialised to the GitHub implementation. -/
def githubPoll (env : FeedEnv) (st : PollerState) : Bool × PollerState :=
  runPoll (githubPollImpl env st) env.wallNow st

/-- `PollingTimer::poll` specialised to the Bluesky implementation. -/
def blueskyPoll (env : FeedEnv) (st : PollerState) : Bool × PollerState :=
  runPoll (blueskyPollImpl env st) env.wallNow st

/-- `PollingTimer::checkPoll` for the GitHub poller: poll only when the
interval gate `shouldPoll` opens, otherwise return false untouched. -/
def githubCheckPoll (pollingInterval : Nat) (currentTime : Int) (env : FeedEnv)
    (st : PollerState) : Bool × PollerState :=
  if shouldPoll pollingInterval currentTime st then githubPoll env st
  else (false, st)

/-- `PollingTimer::checkPoll` for the Bluesky poller. -/
def blueskyCheckPoll (pollingInterval : Nat) (currentTime : Int) (env : FeedEnv)
    (st : PollerState) : Bool × PollerState :=
  if shouldPoll pollingInterval currentTime st then blueskyPoll env st
  else (false, st)

/-- The tail of `GitHubPollingTimer`'s constructor: the base initialiser
seeds both times with `initialTime`, then the constructor runs an initial
`poll()` (the length guard has already passed for the configured user). -/
def githubConstructor (initialTime : Int) (env : FeedEnv) : PollerState :=
  (githubPoll env { lastTriggerTime := initialTime, lastPollTime := initialTime }).2

/-- The GitHub constructor's length guard: `strlen(username) >
MAX_USERNAME_LENGTH` (39) throws `std::invalid_argument`.  Strings model
NUL-free character buffers, so `strlen` is `String.length`. -/
def githubCtorThrows (username : String) : Bool :=
  decide (39 < username.length)

/-- The Bluesky constructor's length guard as written at
`src/main.cpp:248`: it evaluates `strlen(handle)` — `handle` being the
still-uninitialised member buffer — rather than the `userHandle`
parameter, so whether it throws depends only on the garbage the member
buffer happens to contain. -/
def blueskyCtorThrows (handleGarbage : String) (userHandle : String) : Bool :=
  decide (253 < handleGarbage.length)

/-- `ButtonTimer::handleButtonPress`: `trigger(currentTime)` and return
true.  The state of a `ButtonTimer` is just `lastTriggerTime`. -/
def buttonHandleButtonPress (currentTime : Int) (lastTriggerTime : Int) :
    Bool × Int :=
  (true, currentTime)

/-- What one current-conditions weather check observes: transport, begin,
status, the decoded `current.temperature_2m` (`none` when deserialisation
failed or the field is not a float), the `time(nullptr)` read at the
`trigger` call inside `pollImpl`, and the `time(nullptr)` read by
`PollingTimer::poll` when stamping `lastPollTime`. -/
structure WeatherEnv where
  wifiConnected : Bool
  httpBeginOk : Bool
  httpCode : Int
  currentTemp : Option ℚ
  wallImplNow : Int
  wallPollNow : Int
deriving Repr, DecidableEq

/-- `WeatherPollingTimer::pollImpl`: on a parsed current temperature the
check succeeds; `trigger(time(nullptr))` fires only when the value is
strictly above zero, otherwise the anchor is left alone.  (The cached
`currentTemp` member is display-only and not part of the verified state.) -/
def weatherPollImpl (env : WeatherEnv) (st : PollerState) : Bool × Int :=
  if env.wifiConnected = false then (false, st.lastTriggerTime)
  else if env.httpBeginOk = false then (false, st.lastTriggerTime)
  else if env.httpCode = 200 then
    match env.currentTemp with
    | some v =>
      (true, if 0 < v then env.wallImplNow else st.lastTriggerTime)
    | none => (false, st.lastTriggerTime)
  else (false, st.lastTriggerTime)

/-- `PollingTimer::poll` specialised to the weather implementation. -/
def weatherPoll (env : WeatherEnv) (st : PollerState) : Bool × PollerState :=
  runPoll (weatherPollImpl env st) env.wallPollNow st

/-- `PollingTimer::checkPoll` for the weather poller. -/
def weatherCheckPoll (pollingInterval : Nat) (currentTime : Int) (env : WeatherEnv)
    (st : PollerState) : Bool × PollerState :=
  if shouldPoll pollingInterval currentTime st then weatherPoll env st
  else (false, st)

/-- What the construction-time backfill request observes: `http.begin`,
status, whether the body decoded and both `hourly.time` /
`hourly.temperature_2m` are arrays, the two parallel series, and the
`time(nullptr)` read at the top of `findLastAboveZero`. -/
structure BackfillEnv where
  httpBeginOk : Bool
  httpCode : Int
  arraysOk : Bool
  times : List String
  temps : List ℚ
  now : Int
deriving Repr, DecidableEq

/-- `temps[i]` through ArduinoJson: an out-of-range index yields the
default value `0.0`. -/
def tempAt (temps : List ℚ) (i : Nat) : ℚ := (temps.get? i).getD 0

/-- `times[i]` through ArduinoJson: an out-of-range index yields the
default (empty) string. -/
def timeStrAt (times : List String) (i : Nat) : String := (times.get? i).getD ""

/-- The scan loop of `findLastAboveZero`: `for (int i = times.size() - 1;
i >= 0; i--)`, stopping at the first (i.e. highest) index whose temperature
is strictly above zero.  `scanDown times temps n` scans indices
`n-1, …, 0` and returns the index of the hit, if any. -/
def scanDown (times : List String) (temps : List ℚ) : Nat → Option Nat
  | 0 => none
  | i + 1 => if 0 < tempAt temps i then some i else scanDown times temps i

/-- `WeatherPollingTimer::findLastAboveZero`: 30-day backfill.  `now` is the
entry `time(nullptr)` read; a failed `http.begin` returns `now` directly, a
non-200 status or a malformed body leaves the initial `lastAboveZero = now`;
on a hit, `strptime`'s return value is not checked, so an unparsable hit
string falls back to `mktime` of the zero-initialised `tm`; when no sample
is above zero the result is the window start. -/
def findLastAboveZero (env : BackfillEnv) : Int :=
  let now := env.now
  let startTime := now - 30 * 24 * 60 * 60
  if env.httpBeginOk = false then now
  else if env.httpCode = 200 then
    if env.arraysOk then
      match scanDown env.times env.temps env.times.length with
      | some i =>
        match strptimeYmdHM (timeStrAt env.times i) with
        | some tm => mktimeUTC tm
        | none => mktimeUTC tmZero
      | none => startTime
    else now
  else now

/-- `WeatherPollingTimer`'s constructor: the base initialiser seeds both
times with the `time(nullptr)` read at the call site (`initNow`), then
`trigger(findLastAboveZero())` overwrites the anchor with the backfill
result. -/
def weatherConstructor (initNow : Int) (backfill : BackfillEnv) : PollerState :=
  let st0 : PollerState := { lastTriggerTime := initNow, lastPollTime := initNow }
  { st0 with lastTriggerTime := findLastAboveZero backfill }

/-- `TimerDisplay::nextTimer`: `currentIndex = (currentIndex + 1) %
timerCount` with `currentIndex`, `timerCount : uint8_t`; the arithmetic is
on promoted `int` and the assignment converts back to `uint8_t`. -/
def nextTimer (currentIndex timerCount : Nat) : Nat :=
  toUInt8Val (cppMod ((currentIndex : Int) + 1) (timerCount : Int))

/-- `TimerDisplay::previousTimer`: `currentIndex = (currentIndex - 1) %
timerCount`, again on promoted `int` with conversion back to `uint8_t`
(so `0 - 1` is the int `-1`, C++ `%` keeps it `-1`, and the `uint8_t`
assignment wraps it to 255). -/
def previousTimer (currentIndex timerCount : Nat) : Nat :=
  toUInt8Val (cppMod ((currentIndex : Int) - 1) (timerCount : Int))

/-- `TimerDisplay::checkNavigationButtons`: level reads of the two
navigation pins (no stored previous state); `true` means the pin reads LOW
(pressed).  DOWN advances, then UP retreats; the `delay` calls have no
state effect. -/
def checkNavigationButtons (downLow upLow : Bool) (currentIndex timerCount : Nat) :
    Nat :=
  let i1 := if downLow then nextTimer currentIndex timerCount else currentIndex
  if upLow then previousTimer i1 timerCount else i1

/-- `TimerDisplay::checkButton`'s edge detector on the action button:
fires when the pin reads LOW now and read HIGH on the previous tick
(`true` models HIGH).  Returns (fired, new stored `lastButtonState`). -/
def checkButtonEdge (currentButtonState lastButtonState : Bool) : Bool × Bool :=
  (!currentButtonState && lastButtonState, currentButtonState)

/-- `timerCount` consecutive driving ticks with the DOWN navigation button
held pressed: iterate `checkNavigationButtons` with `downLow` true. -/
def holdDownTicks (timerCount : Nat) : Nat → Nat → Nat
  | 0, i => i
  | k + 1, i => holdDownTicks timerCount k (checkNavigationButtons true false i timerCount)

/-! ### Helper lemmas (shared across the claim theorems) -/

/-- Complete case analysis of `GitHubPollingTimer::pollImpl`: either some
failure category holds and the result is failure with the trigger time
untouched, or every guard passed and the result is success with the trigger
set to the parsed epoch. -/
theorem githubPollImpl_cases (env : FeedEnv) (st : PollerState) :
    (githubPollImpl env st = (false, st.lastTriggerTime) ∧
      (env.wifiConnected = false ∨ env.httpBeginOk = false ∨ env.httpCode ≠ 200 ∨
       env.jsonOk = false ∨ env.createdAt = none ∨
       ∃ s, env.createdAt = some s ∧ strptimeYmdHMS s = none)) ∨
    (∃ s tm, env.wifiConnected = true ∧ env.httpBeginOk = true ∧ env.httpCode = 200 ∧
      env.jsonOk = true ∧ env.createdAt = some s ∧ strptimeYmdHMS s = some tm ∧
      githubPollImpl env st = (true, mktimeUTC tm)) := by
  cases hw : env.wifiConnected with
  | false => exact Or.inl ⟨by simp [githubPollImpl, hw], Or.inl rfl⟩
  | true =>
  cases hb : env.httpBeginOk with
  | false => exact Or.inl ⟨by simp [githubPollImpl, hw, hb], Or.inr (Or.inl rfl)⟩
  | true =>
  by_cases hc : env.httpCode = 200
  · cases hj : env.jsonOk with
    | false =>
      exact Or.inl ⟨by simp [githubPollImpl, hw, hb, hc, hj],
        Or.inr (Or.inr (Or.inr (Or.inl rfl)))⟩
    | true =>
      cases hcr : env.createdAt with
      | none =>
        exact Or.inl ⟨by simp [githubPollImpl, hw, hb, hc, hj, hcr],
          Or.inr (Or.inr (Or.inr (Or.inr (Or.inl rfl))))⟩
      | some s =>
        cases hp : strptimeYmdHMS s with
        | none =>
          exact Or.inl ⟨by simp [githubPollImpl, hw, hb, hc, hj, hcr, hp],
            Or.inr (Or.inr (Or.inr (Or.inr (Or.inr ⟨s, rfl, hp⟩))))⟩
        | some tm =>
          exact Or.inr ⟨s, tm, rfl, rfl, hc, rfl, rfl, hp,
            by simp [githubPollImpl, hw, hb, hc, hj, hcr, hp]⟩
  · exact Or.inl ⟨by simp [githubPollImpl, hw, hb, hc], Or.inr (Or.inr (Or.inl hc))⟩

/-- Complete case analysis of `BlueskyPollingTimer::pollImpl`. -/
theorem blueskyPollImpl_cases (env : FeedEnv) (st : PollerState) :
    (blueskyPollImpl env st = (false, st.lastTriggerTime) ∧
      (env.wifiConnected = false ∨ env.httpBeginOk = false ∨ env.httpCode ≠ 200 ∨
       env.jsonOk = false ∨ env.createdAt = none ∨
       ∃ s, env.createdAt = some s ∧ strptimeYmdHMS s = none)) ∨
    (∃ s tm, env.wifiConnected = true ∧ env.httpBeginOk = true ∧ env.httpCode = 200 ∧
      env.jsonOk = true ∧ env.createdAt = some s ∧ strptimeYmdHMS s = some tm ∧
      blueskyPollImpl env st = (true, mktimeUTC tm)) := by
  cases hw : env.wifiConnected with
  | false => exact Or.inl ⟨by simp [blueskyPollImpl, hw], Or.inl rfl⟩
  | true =>
  cases hb : env.httpBeginOk with
  | false => exact Or.inl ⟨by simp [blueskyPollImpl, hw, hb], Or.inr (Or.inl rfl)⟩
  | true =>
  by_cases hc : env.httpCode = 200
  · cases hj : env.jsonOk with
    | false =>
      exact Or.inl ⟨by simp [blueskyPollImpl, hw, hb, hc, hj],
        Or.inr (Or.inr (Or.inr (Or.inl rfl)))⟩
    | true =>
      cases hcr : env.createdAt with
      | none =>
        exact Or.inl ⟨by simp [blueskyPollImpl, hw, hb, hc, hj, hcr],
          Or.inr (Or.inr (Or.inr (Or.inr (Or.inl rfl))))⟩
      | some s =>
        cases hp : strptimeYmdHMS s with
        | none =>
          exact Or.inl ⟨by simp [blueskyPollImpl, hw, hb, hc, hj, hcr, hp],
            Or.inr (Or.inr (Or.inr (Or.inr (Or.inr ⟨s, rfl, hp⟩))))⟩
        | some tm =>
          exact Or.inr ⟨s, tm, rfl, rfl, hc, rfl, rfl, hp,
            by simp [blueskyPollImpl, hw, hb, hc, hj, hcr, hp]⟩
  · exact Or.inl ⟨by simp [blueskyPollImpl, hw, hb, hc], Or.inr (Or.inr (Or.inl hc))⟩

/-- Complete case analysis of `WeatherPollingTimer::pollImpl`. -/
theorem weatherPollImpl_cases (env : WeatherEnv) (st : PollerState) :
    (weatherPollImpl env st = (false, st.lastTriggerTime) ∧
      (env.wifiConnected = false ∨ env.httpBeginOk = false ∨ env.httpCode ≠ 200 ∨
       env.currentTemp = none)) ∨
    (∃ v, env.wifiConnected = true ∧ env.httpBeginOk = true ∧ env.httpCode = 200 ∧
      env.currentTemp = some v ∧
      weatherPollImpl env st =
        (true, if 0 < v then env.wallImplNow else st.lastTriggerTime)) := by
  cases hw : env.wifiConnected with
  | false => exact Or.inl ⟨by simp [weatherPollImpl, hw], Or.inl rfl⟩
  | true =>
  cases hb : env.httpBeginOk with
  | false => exact Or.inl ⟨by simp [weatherPollImpl, hw, hb], Or.inr (Or.inl rfl)⟩
  | true =>
  by_cases hc : env.httpCode = 200
  · cases ht : env.currentTemp with
    | none =>
      exact Or.inl ⟨by simp [weatherPollImpl, hw, hb, hc, ht],
        Or.inr (Or.inr (Or.inr rfl))⟩
    | some v =>
      exact Or.inr ⟨v, rfl, rfl, hc, rfl, by simp [weatherPollImpl, hw, hb, hc, ht]⟩
  · exact Or.inl ⟨by simp [weatherPollImpl, hw, hb, hc], Or.inr (Or.inr (Or.inl hc))⟩

/-- `runPoll` on a failed implementation result reproduces the input state. -/
theorem runPoll_failure (t w : Int) (st : PollerState) :
    runPoll (false, t) w st = (false, { st with lastTriggerTime := t }) := rfl

/-- The `lastPollTime` written by `runPoll` is the fresh wall read on
success and the old value on failure. -/
theorem runPoll_lastPollTime (r : Bool × Int) (w : Int) (st : PollerState) :
    (runPoll r w st).2.lastPollTime =
      if (runPoll r w st).1 then w else st.lastPollTime := rfl

/-- For an in-range index and a timer count that fits `uint8_t`, `nextTimer`
is plain wraparound increment. -/
theorem nextTimer_mod (i N : Nat) (h1 : 0 < N) (hN : N ≤ 255) :
    nextTimer i N = (i + 1) % N := by
  have hc : ((i : Int) + 1) = ((i + 1 : Nat) : Int) := by push_cast; ring
  have e1 : cppMod ((i : Int) + 1) (N : Int) = (((i + 1) % N : Nat) : Int) := by
    rw [cppMod, if_pos (by positivity), hc, Int.natCast_mod]; rfl
  have hlt : (i + 1) % N < 256 := lt_of_lt_of_le (Nat.mod_lt _ h1) (by omega)
  rw [nextTimer, e1, toUInt8Val]
  have h2 : Int.emod (((i + 1) % N : Nat) : Int) 256 = (((i + 1) % N : Nat) : Int) :=
    Int.emod_eq_of_lt (by positivity) (by exact_mod_cast hlt)
  rw [h2]
  omega

/-- Holding the DOWN navigation button across `k` driving ticks advances the
index by `k` modulo the timer count. -/
theorem holdDownTicks_mod (N : Nat) (h1 : 0 < N) (hN : N ≤ 255) :
    ∀ (k i : Nat), i < N → holdDownTicks N k i = (i + k) % N := by
  intro k
  induction k with
  | zero =>
    intro i hi
    simp [holdDownTicks, Nat.mod_eq_of_lt hi]
  | succ k ih =>
    intro i hi
    have hstep : checkNavigationButtons true false i N = (i + 1) % N := by
      simp [checkNavigationButtons, nextTimer_mod i N h1 hN]
    rw [holdDownTicks, hstep, ih _ (Nat.mod_lt _ h1), Nat.mod_add_mod]
    congr 1
    omega

/-! ### Claim theorems -/

/-- C1: with the 4-timer array of `setup()`, "next" at index `N−1 = 3` does
wrap to 0, but "previous" at index 0 stores 255 — `(0 - 1) % 4` is the int
`-1` and the `uint8_t` assignment wraps it to 255 — not `N−1 = 3` as the
spec states (255 is outside `[0, 4)`, so the subsequent `timers[currentIndex]`
access is out of bounds). -/
theorem previousTimer_wraparound_bug :
    nextTimer 3 4 = 0 ∧ previousTimer 0 4 = 255 ∧ previousTimer 0 4 ≠ 3 := by
  decide

set_option maxRecDepth 8192 in
/-- C3: the GitHub constructor's guard rejects a 40-character username, but
the Bluesky constructor's guard tests `strlen(handle)` — the uninitialised
member buffer — instead of the `userHandle` argument, so a 254-character
handle is not rejected (here with the member garbage reading as an empty
string); construction proceeds into the overflowing `strcpy`. -/
theorem bluesky_ctor_checks_wrong_buffer :
    githubCtorThrows (String.mk (List.replicate 40 'a')) = true ∧
    (String.mk (List.replicate 254 'a')).length = 254 ∧
    blueskyCtorThrows "" (String.mk (List.replicate 254 'a')) = false := by
  decide

/-- C9 counterexample: the navigation handler is level-triggered, not
edge-detected — a DOWN button held LOW across two consecutive driving ticks
advances the index twice (0 to 2 over a 4-timer array), not once per
physical press. -/
theorem navigation_advances_every_tick_counterexample :
    checkNavigationButtons true false 0 4 = 1 ∧
    checkNavigationButtons true false (checkNavigationButtons true false 0 4) 4 = 2 := by
  decide

/-- C9 (amended): only the action button is edge-detected (its handler
fires on a HIGH-to-LOW transition and not while the pin stays LOW); the two
navigation inputs are level-triggered with a blocking settle delay, so a
held navigation button advances or retreats the index once per driving
tick — `k` ticks held move the index by `k` modulo the timer count. -/
theorem navigation_level_triggered_action_edge_detected :
    ((checkButtonEdge false true).1 = true ∧
     (checkButtonEdge false false).1 = false ∧
     (checkButtonEdge false true).2 = false) ∧
    (∀ (timerCount k i : Nat), 0 < timerCount → timerCount ≤ 255 →
      i < timerCount → holdDownTicks timerCount k i = (i + k) % timerCount) := by
  exact ⟨⟨rfl, rfl, rfl⟩, fun N k i h1 hN hi => holdDownTicks_mod N h1 hN k i hi⟩

/-- Witness for C9's amended theorem: two held ticks from index 0 over the
4-timer array land on index 2. -/
theorem navigation_level_triggered_action_edge_detected_witness :
    holdDownTicks 4 2 0 = 2 := by
  have h := navigation_level_triggered_action_edge_detected.2 4 2 0
    (by decide) (by decide) (by decide)
  simpa using h

/-- C2 counterexample: `last_trigger_time` is not monotonically
non-decreasing.  A `GitHubPollingTimer` constructed at epoch 1704200000
whose constructor-time initial probe finds the newest event at
`2024-01-01T12:00:00` (epoch 1704110400) moves `lastTriggerTime` strictly
backwards, from 1704200000 to 1704110400. -/
theorem lastTriggerTime_decreases_counterexample :
    (githubConstructor 1704200000
        ⟨true, true, 200, true, some "2024-01-01T12:00:00", 1704200000⟩).lastTriggerTime
      = 1704110400 ∧ (1704110400 : Int) < 1704200000 := by
  decide

/-- C2 (amended): `lastTriggerTime` is mutated only through the timer's own
`trigger` call — every operation either leaves it unchanged or sets it to
the value `trigger` was given (the parsed event epoch for feed polls, the
wall-clock read for the weather check, the pressed-time `now` for the
manual timer, the backfill result for the weather constructor) — but it is
not monotone: a discovered event timestamp may lie before the current
anchor. -/
theorem lastTriggerTime_only_via_trigger :
    (∀ (env : FeedEnv) (st : PollerState),
      (githubPoll env st).2.lastTriggerTime = st.lastTriggerTime ∨
      ∃ s tm, env.createdAt = some s ∧ strptimeYmdHMS s = some tm ∧
        (githubPoll env st).2.lastTriggerTime = mktimeUTC tm) ∧
    (∀ (env : FeedEnv) (st : PollerState),
      (blueskyPoll env st).2.lastTriggerTime = st.lastTriggerTime ∨
      ∃ s tm, env.createdAt = some s ∧ strptimeYmdHMS s = some tm ∧
        (blueskyPoll env st).2.lastTriggerTime = mktimeUTC tm) ∧
    (∀ (env : WeatherEnv) (st : PollerState),
      (weatherPoll env st).2.lastTriggerTime = st.lastTriggerTime ∨
      (weatherPoll env st).2.lastTriggerTime = env.wallImplNow) ∧
    (∀ (currentTime t : Int), (buttonHandleButtonPress currentTime t).2 = currentTime) ∧
    (∀ (initNow : Int) (b : BackfillEnv),
      (weatherConstructor initNow b).lastTriggerTime = findLastAboveZero b) := by
  refine ⟨?_, ?_, ?_, fun _ _ => rfl, fun _ _ => rfl⟩
  · intro env st
    rcases githubPollImpl_cases env st with ⟨heq, -⟩ | ⟨s, tm, -, -, -, -, hcr, hp, heq⟩
    · left
      show (githubPollImpl env st).2 = st.lastTriggerTime
      rw [heq]
    · right
      exact ⟨s, tm, hcr, hp, by show (githubPollImpl env st).2 = mktimeUTC tm; rw [heq]⟩
  · intro env st
    rcases blueskyPollImpl_cases env st with ⟨heq, -⟩ | ⟨s, tm, -, -, -, -, hcr, hp, heq⟩
    · left
      show (blueskyPollImpl env st).2 = st.lastTriggerTime
      rw [heq]
    · right
      exact ⟨s, tm, hcr, hp, by show (blueskyPollImpl env st).2 = mktimeUTC tm; rw [heq]⟩
  · intro env st
    rcases weatherPollImpl_cases env st with ⟨heq, -⟩ | ⟨v, -, -, -, -, heq⟩
    · left
      show (weatherPollImpl env st).2 = st.lastTriggerTime
      rw [heq]
    · by_cases hv : 0 < v
      · right
        show (weatherPollImpl env st).2 = env.wallImplNow
        rw [heq, if_pos hv]
      · left
        show (weatherPollImpl env st).2 = st.lastTriggerTime
        rw [heq, if_neg hv]

/-- C4: for each interval poller and each failure category (no transport,
`http.begin` failure, non-200 status, JSON decode failure, absent
timestamp field, timestamp-parse failure; for the weather poller a missing
or non-float current temperature), the check attempt returns false and the
state — both `lastTriggerTime` and `lastPollTime` — is exactly the input
state. -/
theorem failed_poll_leaves_state_unchanged :
    (∀ (env : FeedEnv) (st : PollerState),
      (env.wifiConnected = false ∨ env.httpBeginOk = false ∨ env.httpCode ≠ 200 ∨
       env.jsonOk = false ∨ env.createdAt = none ∨
       (∃ s, env.createdAt = some s ∧ strptimeYmdHMS s = none)) →
      githubPoll env st = (false, st) ∧ blueskyPoll env st = (false, st)) ∧
    (∀ (env : WeatherEnv) (st : PollerState),
      (env.wifiConnected = false ∨ env.httpBeginOk = false ∨ env.httpCode ≠ 200 ∨
       env.currentTemp = none) →
      weatherPoll env st = (false, st)) := by
  constructor
  · intro env st hcat
    constructor
    · rcases githubPollImpl_cases env st with ⟨heq, -⟩ | ⟨s, tm, hw, hb, hc, hj, hcr, hp, -⟩
      · show runPoll (githubPollImpl env st) env.wallNow st = (false, st)
        rw [heq]
        rfl
      · exfalso
        rcases hcat with h | h | h | h | h | ⟨s', hs', hp'⟩ <;> simp_all
    · rcases blueskyPollImpl_cases env st with ⟨heq, -⟩ | ⟨s, tm, hw, hb, hc, hj, hcr, hp, -⟩
      · show runPoll (blueskyPollImpl env st) env.wallNow st = (false, st)
        rw [heq]
        rfl
      · exfalso
        rcases hcat with h | h | h | h | h | ⟨s', hs', hp'⟩ <;> simp_all
  · intro env st hcat
    rcases weatherPollImpl_cases env st with ⟨heq, -⟩ | ⟨v, hw, hb, hc, ht, -⟩
    · show runPoll (weatherPollImpl env st) env.wallPollNow st = (false, st)
      rw [heq]
      rfl
    · exfalso
      rcases hcat with h | h | h | h <;> simp_all

/-- Witness for C4: a WiFi-down GitHub check and a 404 weather check leave
concrete states untouched and return false. -/
theorem failed_poll_leaves_state_unchanged_witness :
    githubPoll ⟨false, true, 200, true, none, 5⟩ ⟨1, 2⟩ = (false, ⟨1, 2⟩) ∧
    weatherPoll ⟨true, true, 404, some 3, 9, 9⟩ ⟨1, 2⟩ = (false, ⟨1, 2⟩) :=
  ⟨(failed_poll_leaves_state_unchanged.1 _ _ (Or.inl rfl)).1,
   failed_poll_leaves_state_unchanged.2 _ _ (Or.inr (Or.inr (Or.inl (by decide))))⟩

/-- C5: after a successful check attempt — forced (`poll`) or
interval-gated (`checkPoll`) — `lastPollTime` equals the `time(nullptr)`
read taken when the check completed (the `wallNow` / `wallPollNow`
environment field); it never equals any caller-supplied `now`, which does
not even flow into `poll`; and on failure `lastPollTime` is unchanged. -/
theorem successful_poll_sets_lastPollTime :
    (∀ (env : FeedEnv) (st : PollerState),
      ((githubPoll env st).1 = true →
        (githubPoll env st).2.lastPollTime = env.wallNow) ∧
      ((githubPoll env st).1 = false →
        (githubPoll env st).2.lastPollTime = st.lastPollTime) ∧
      ((blueskyPoll env st).1 = true →
        (blueskyPoll env st).2.lastPollTime = env.wallNow) ∧
      ((blueskyPoll env st).1 = false →
        (blueskyPoll env st).2.lastPollTime = st.lastPollTime)) ∧
    (∀ (env : WeatherEnv) (st : PollerState),
      ((weatherPoll env st).1 = true →
        (weatherPoll env st).2.lastPollTime = env.wallPollNow) ∧
      ((weatherPoll env st).1 = false →
        (weatherPoll env st).2.lastPollTime = st.lastPollTime)) ∧
    (∀ (iv : Nat) (now : Int) (env : FeedEnv) (st : PollerState),
      (githubCheckPoll iv now env st).1 = true →
      (githubCheckPoll iv now env st).2.lastPollTime = env.wallNow) ∧
    (∀ (iv : Nat) (now : Int) (env : WeatherEnv) (st : PollerState),
      (weatherCheckPoll iv now env st).1 = true →
      (weatherCheckPoll iv now env st).2.lastPollTime = env.wallPollNow) := by
  refine ⟨?_, ?_, ?_, ?_⟩
  · intro env st
    refine ⟨?_, ?_, ?_, ?_⟩ <;> intro h
    · have h' : (githubPollImpl env st).1 = true := h
      simp [githubPoll, runPoll, h']
    · have h' : (githubPollImpl env st).1 = false := h
      simp [githubPoll, runPoll, h']
    · have h' : (blueskyPollImpl env st).1 = true := h
      simp [blueskyPoll, runPoll, h']
    · have h' : (blueskyPollImpl env st).1 = false := h
      simp [blueskyPoll, runPoll, h']
  · intro env st
    refine ⟨?_, ?_⟩ <;> intro h
    · have h' : (weatherPollImpl env st).1 = true := h
      simp [weatherPoll, runPoll, h']
    · have h' : (weatherPollImpl env st).1 = false := h
      simp [weatherPoll, runPoll, h']
  · intro iv now env st h
    rw [githubCheckPoll] at h ⊢
    by_cases hs : shouldPoll iv now st = true
    · rw [if_pos hs] at h ⊢
      have h' : (githubPollImpl env st).1 = true := h
      simp [githubPoll, runPoll, h']
    · rw [if_neg hs] at h
      simp at h
  · intro iv now env st h
    rw [weatherCheckPoll] at h ⊢
    by_cases hs : shouldPoll iv now st = true
    · rw [if_pos hs] at h ⊢
      have h' : (weatherPollImpl env st).1 = true := h
      simp [weatherPoll, runPoll, h']
    · rw [if_neg hs] at h
      simp at h

/-- Witness for C5: a successful GitHub poll stamps `lastPollTime` with the
wall read 777, and a failed one leaves the stored value 2. -/
theorem successful_poll_sets_lastPollTime_witness :
    (githubPoll ⟨true, true, 200, true, some "2024-01-01T12:00:00", 777⟩
        ⟨0, 0⟩).2.lastPollTime = 777 ∧
    (githubPoll ⟨false, true, 200, true, none, 5⟩ ⟨1, 2⟩).2.lastPollTime = 2 :=
  ⟨(successful_poll_sets_lastPollTime.1 _ _).1 (by decide),
   (successful_poll_sets_lastPollTime.1 _ _).2.1 (by decide)⟩

/-- C6: a successful feed check sets `lastTriggerTime` to exactly the epoch
obtained by `strptime`/`mktime` from the first item's creation-timestamp
string, and the stored anchor does not depend on the check's wall-clock
read at all (replacing `wallNow` by any `w` leaves it unchanged).  The two
closing conjuncts pin down the concrete parse: `2024-01-01T12:00:00` is the
epoch 1704110400. -/
theorem feed_poll_sets_trigger_to_parsed_epoch :
    (∀ (env : FeedEnv) (st : PollerState), (githubPoll env st).1 = true →
      some (githubPoll env st).2.lastTriggerTime =
        (env.createdAt.bind strptimeYmdHMS).map mktimeUTC ∧
      ∀ (w : Int), (githubPoll { env with wallNow := w } st).2.lastTriggerTime =
        (githubPoll env st).2.lastTriggerTime) ∧
    (∀ (env : FeedEnv) (st : PollerState), (blueskyPoll env st).1 = true →
      some (blueskyPoll env st).2.lastTriggerTime =
        (env.createdAt.bind strptimeYmdHMS).map mktimeUTC ∧
      ∀ (w : Int), (blueskyPoll { env with wallNow := w } st).2.lastTriggerTime =
        (blueskyPoll env st).2.lastTriggerTime) ∧
    strptimeYmdHMS "2024-01-01T12:00:00" = some ⟨2024, 1, 1, 12, 0, 0⟩ ∧
    mktimeUTC ⟨2024, 1, 1, 12, 0, 0⟩ = 1704110400 := by
  refine ⟨?_, ?_, by decide, by decide⟩
  · intro env st h
    rcases githubPollImpl_cases env st with ⟨heq, -⟩ | ⟨s, tm, -, -, -, -, hcr, hp, heq⟩
    · exact absurd (show (githubPollImpl env st).1 = true from h) (by rw [heq]; simp)
    · refine ⟨?_, fun w => rfl⟩
      rw [show (githubPoll env st).2.lastTriggerTime = (githubPollImpl env st).2 from rfl,
        heq, hcr]
      simp [hp]
  · intro env st h
    rcases blueskyPollImpl_cases env st with ⟨heq, -⟩ | ⟨s, tm, -, -, -, -, hcr, hp, heq⟩
    · exact absurd (show (blueskyPollImpl env st).1 = true from h) (by rw [heq]; simp)
    · refine ⟨?_, fun w => rfl⟩
      rw [show (blueskyPoll env st).2.lastTriggerTime = (blueskyPollImpl env st).2 from rfl,
        heq, hcr]
      simp [hp]

/-- Witness for C6: the concrete successful GitHub check whose feed says
`2024-01-01T12:00:00` anchors at 1704110400 even though the wall read is
1704200000. -/
theorem feed_poll_sets_trigger_to_parsed_epoch_witness :
    some (githubPoll ⟨true, true, 200, true, some "2024-01-01T12:00:00", 1704200000⟩
        ⟨0, 0⟩).2.lastTriggerTime = some (1704110400 : Int) := by
  rw [(feed_poll_sets_trigger_to_parsed_epoch.1 _ _ (by decide)).1]
  decide

/-- The downward scan finds nothing when no sample in range is above
zero. -/
theorem scanDown_eq_none (times : List String) (temps : List ℚ) :
    ∀ n, (∀ k, k < n → tempAt temps k ≤ 0) → scanDown times temps n = none := by
  intro n
  induction n with
  | zero => intro _; rfl
  | succ m ih =>
    intro h
    rw [scanDown, if_neg (not_lt.mpr (h m (Nat.lt_succ_self m)))]
    exact ih fun k hk => h k (Nat.lt_succ_of_lt hk)

/-- The downward scan stops at the greatest in-range index whose sample is
above zero. -/
theorem scanDown_eq_some (times : List String) (temps : List ℚ) :
    ∀ n j, j < n → 0 < tempAt temps j →
      (∀ k, j < k → k < n → tempAt temps k ≤ 0) →
      scanDown times temps n = some j := by
  intro n
  induction n with
  | zero => intro j hj; exact absurd hj (Nat.not_lt_zero j)
  | succ m ih =>
    intro j hj hpos hmax
    rw [scanDown]
    by_cases hm : j = m
    · subst hm
      rw [if_pos hpos]
    · have hjm : j < m := by omega
      rw [if_neg (not_lt.mpr (hmax m hjm (Nat.lt_succ_self m)))]
      exact ih j hjm hpos fun k h1 h2 => hmax k h1 (Nat.lt_succ_of_lt h2)

/-- C7: on a well-formed backfill response (transport and decode succeeded,
the hit timestamp parses), the initial anchor is the parsed timestamp of
the newest sample strictly above zero — the in-range index `j` above zero
with everything more recent at or below zero — and when no sample in the
window is above zero, the anchor is the window start
`now − 30·24·60·60`. -/
theorem backfill_scan_newest_above_zero :
    ∀ (env : BackfillEnv), env.httpBeginOk = true → env.httpCode = 200 →
      env.arraysOk = true →
      ((∀ k, k < env.times.length → tempAt env.temps k ≤ 0) →
        findLastAboveZero env = env.now - 30 * 24 * 60 * 60) ∧
      (∀ j, j < env.times.length → 0 < tempAt env.temps j →
        (∀ k, j < k → k < env.times.length → tempAt env.temps k ≤ 0) →
        ∀ tm, strptimeYmdHM (timeStrAt env.times j) = some tm →
          findLastAboveZero env = mktimeUTC tm) := by
  intro env hb hc ha
  constructor
  · intro h
    have hnone := scanDown_eq_none env.times env.temps env.times.length h
    simp [findLastAboveZero, hb, hc, ha, hnone]
  · intro j hj hpos hmax tm htm
    have hsome := scanDown_eq_some env.times env.temps env.times.length j hj hpos hmax
    simp [findLastAboveZero, hb, hc, ha, hsome, htm]

/-- Witness for C7: over the three-sample series with temperatures
`[5, 2, -1]`, the newest sample above zero is index 1
(`2024-01-01T01:00`, epoch 1704070800); over the all-zero series the
anchor is the window start. -/
theorem backfill_scan_newest_above_zero_witness :
    findLastAboveZero ⟨true, 200, true,
        ["2024-01-01T00:00", "2024-01-01T01:00", "2024-01-01T02:00"],
        [5, 2, -1], 1704200000⟩ = 1704070800 ∧
    findLastAboveZero ⟨true, 200, true, ["2024-01-01T00:00"], [0], 1704200000⟩
      = 1704200000 - 30 * 24 * 60 * 60 := by
  constructor
  · have h := (backfill_scan_newest_above_zero
        ⟨true, 200, true,
          ["2024-01-01T00:00", "2024-01-01T01:00", "2024-01-01T02:00"],
          [5, 2, -1], 1704200000⟩ rfl rfl rfl).2 1 (by decide)
      (by decide)
      (fun k h1 h2 => by
        have h2' : k < 3 := by simpa using h2
        interval_cases k
        · decide)
      ⟨2024, 1, 1, 1, 0, 0⟩ (by decide)
    rw [h]
    decide
  · exact (backfill_scan_newest_above_zero
        ⟨true, 200, true, ["2024-01-01T00:00"], [0], 1704200000⟩ rfl rfl rfl).1
      (fun k hk => by
        have hk' : k < 1 := by simpa using hk
        interval_cases k
        · decide)

/-- C8: a weather periodic check that reaches a parsed current temperature
is a poll success (`lastPollTime` takes the completion wall read); a value
strictly above zero re-anchors `lastTriggerTime` to the wall read taken at
the `trigger` call, while a value at or below zero leaves the anchor
untouched. -/
theorem weather_threshold_periodic_check :
    ∀ (env : WeatherEnv) (st : PollerState) (v : ℚ),
      env.wifiConnected = true → env.httpBeginOk = true → env.httpCode = 200 →
      env.currentTemp = some v →
      (weatherPoll env st).1 = true ∧
      (weatherPoll env st).2.lastPollTime = env.wallPollNow ∧
      (0 < v → (weatherPoll env st).2.lastTriggerTime = env.wallImplNow) ∧
      (v ≤ 0 → (weatherPoll env st).2.lastTriggerTime = st.lastTriggerTime) := by
  intro env st v hw hb hc ht
  have himpl : weatherPollImpl env st =
      (true, if 0 < v then env.wallImplNow else st.lastTriggerTime) := by
    simp [weatherPollImpl, hw, hb, hc, ht]
  refine ⟨?_, ?_, ?_, ?_⟩
  · show (weatherPollImpl env st).1 = true
    rw [himpl]
  · have h' : (weatherPollImpl env st).1 = true := by rw [himpl]
    simp [weatherPoll, runPoll, h']
  · intro hv
    show (weatherPollImpl env st).2 = env.wallImplNow
    rw [himpl]
    exact if_pos hv
  · intro hv
    show (weatherPollImpl env st).2 = st.lastTriggerTime
    rw [himpl]
    exact if_neg (not_lt.mpr hv)

/-- Witness for C8: current temperature 3 re-anchors to the wall read 100
and stamps `lastPollTime` 101; current temperature −2 keeps the anchor 7
while still being a poll success. -/
theorem weather_threshold_periodic_check_witness :
    (weatherPoll ⟨true, true, 200, some 3, 100, 101⟩ ⟨7, 8⟩).2.lastTriggerTime = 100 ∧
    (weatherPoll ⟨true, true, 200, some 3, 100, 101⟩ ⟨7, 8⟩).2.lastPollTime = 101 ∧
    (weatherPoll ⟨true, true, 200, some (-2), 100, 101⟩ ⟨7, 8⟩).2.lastTriggerTime = 7 ∧
    (weatherPoll ⟨true, true, 200, some (-2), 100, 101⟩ ⟨7, 8⟩).1 = true :=
  ⟨(weather_threshold_periodic_check _ _ 3 rfl rfl rfl rfl).2.2.1 (by decide),
   (weather_threshold_periodic_check _ _ 3 rfl rfl rfl rfl).2.1,
   (weather_threshold_periodic_check _ _ (-2) rfl rfl rfl rfl).2.2.2 (by decide),
   (weather_threshold_periodic_check _ _ (-2) rfl rfl rfl rfl).1⟩

/-- C10: when the construction-time backfill request fails — `http.begin`
fails, the status is not 200, or the JSON arrays are malformed — the
initial anchor is the `time(nullptr)` read at the start of the backfill
(the construction time, so the displayed elapsed time starts at zero), and
that value is never the 30-day window start. -/
theorem backfill_failure_anchor_is_construction_now :
    ∀ (initNow : Int) (env : BackfillEnv),
      (env.httpBeginOk = false ∨ env.httpCode ≠ 200 ∨ env.arraysOk = false) →
      findLastAboveZero env = env.now ∧
      (weatherConstructor initNow env).lastTriggerTime = env.now ∧
      env.now ≠ env.now - 30 * 24 * 60 * 60 := by
  intro initNow env hcat
  have hmain : findLastAboveZero env = env.now := by
    rcases hcat with h | h | h
    · simp [findLastAboveZero, h]
    · cases hb : env.httpBeginOk
      · simp [findLastAboveZero, hb]
      · simp [findLastAboveZero, hb, h]
    · cases hb : env.httpBeginOk
      · simp [findLastAboveZero, hb]
      · by_cases hc : env.httpCode = 200
        · simp [findLastAboveZero, hb, hc, h]
        · simp [findLastAboveZero, hb, hc]
  refine ⟨hmain, ?_, by omega⟩
  show findLastAboveZero env = env.now
  exact hmain

/-- Witness for C10: a backfill whose `http.begin` fails anchors at the
construction read 42. -/
theorem backfill_failure_anchor_is_construction_now_witness :
    findLastAboveZero ⟨false, 200, true, [], [], 42⟩ = 42 :=
  (backfill_failure_anchor_is_construction_now 0 _ (Or.inl rfl)).1

end TimeSince
